import Mathlib

/-!
Verification of the cafeteria ordering backend.

Shallow embedding of the data model and the request handlers of the
repository (Express + Prisma, TypeScript).  The persistent store is a
record of lists (one per table); each handler is a pure function from
the store and the request to the new store and an HTTP-style result.
Decimal amounts are modelled as exact integers, ids as strings.
Sequential semantics: one request runs to completion at a time; a
Prisma `$transaction` body is a single step of the function.
-/

namespace Cafeteria

/-- Roles, as in the `Role` enum of the schema. -/
inductive Role
  | student
  | staff
  | admin
deriving DecidableEq

/-- `OrderStatus` enum of the schema. -/
inductive OrderStatus
  | pending
  | confirmed
  | preparing
  | ready
  | rejected
  | picked_up
deriving DecidableEq

/-- `PickupType` enum of the schema. -/
inductive PickupType
  | dine_in
  | take_out
deriving DecidableEq

/-- `PaymentStatus` enum of the schema. -/
inductive PaymentStatus
  | pending
  | cash_on_pickup
  | paid
deriving DecidableEq

/-- `NotificationStatus` enum of the schema. -/
inductive NotificationStatus
  | unread
  | read
deriving DecidableEq

/-- `ChangeType` enum of the schema (inventory log rows). -/
inductive ChangeType
  | restock
  | deduct
deriving DecidableEq

/-- Row of the `MenuItem` table (fields used by the order engine).
`stockLimit = none` models the NULL (unlimited) stock. -/
structure MenuItem where
  id : String
  name : String
  price : Int
  availability : Bool
  stockLimit : Option Int
deriving DecidableEq

/-- Row of the `Order` table.  `userId = none` models a walk-in order
(nullable owner).  `customerType` has schema default `"student"`. -/
structure Order where
  id : String
  userId : Option String
  status : OrderStatus
  pickupType : PickupType
  pickupTime : Option String
  totalPrice : Int
  paymentStatus : PaymentStatus
  paymentConfirmed : Bool
  customerName : Option String
  customerType : String
deriving DecidableEq

/-- Row of the `OrderItem` table. -/
structure OrderItem where
  orderId : String
  itemId : String
  quantity : Int
  priceAtOrder : Int
deriving DecidableEq

/-- Row of the `InventoryLog` table; `staffId = none` is a
system-generated entry (no actor). -/
structure InventoryLog where
  staffId : Option String
  itemId : String
  changeType : ChangeType
  quantity : Int
  note : String
deriving DecidableEq

/-- Row of the `Notification` table.  `userId` is NOT NULL in the
schema: inserting a null owner is a constraint violation. -/
structure Notification where
  userId : String
  orderId : String
  message : String
  status : NotificationStatus
deriving DecidableEq

/-- Row of the `Payment` table (`orderId` nullable after the POS
migration). -/
structure Payment where
  id : String
  orderId : Option String
  processedById : String
  amountDue : Int
  amountReceived : Int
  change : Int
  paymentMethod : String
deriving DecidableEq

/-- The persistent store: one list per table, in insertion order. -/
structure DB where
  menuItems : List MenuItem
  orders : List Order
  orderItems : List OrderItem
  inventoryLogs : List InventoryLog
  notifications : List Notification
  payments : List Payment
deriving DecidableEq

/-- HTTP-style handler outcome: an error status code with its JSON
`error` message, or a success payload. -/
inductive HResult (α : Type)
  | err (code : Nat) (msg : String)
  | ok (v : α)
deriving DecidableEq

/-- `prisma.order.findUnique({ where: { id } })`. -/
def findOrder (db : DB) (x : String) : Option Order :=
  db.orders.find? (fun o => o.id == x)

/-- `prisma.menuItem` lookup by primary key. -/
def findMenuItem (db : DB) (x : String) : Option MenuItem :=
  db.menuItems.find? (fun m => m.id == x)

/-- Decoding of the request's `pickupType` against
`Object.values(PickupType)` (routes/orders.ts, create order). -/
def parsePickupType : String → Option PickupType
  | "dine_in" => some PickupType.dine_in
  | "take_out" => some PickupType.take_out
  | _ => none

/-- Decoding of the request's `status` against
`Object.values(OrderStatus)` (routes/orders.ts, update status). -/
def parseOrderStatus : String → Option OrderStatus
  | "pending" => some OrderStatus.pending
  | "confirmed" => some OrderStatus.confirmed
  | "preparing" => some OrderStatus.preparing
  | "ready" => some OrderStatus.ready
  | "rejected" => some OrderStatus.rejected
  | "picked_up" => some OrderStatus.picked_up
  | _ => none

/-- String form of a status, as interpolated into notification
messages by the update-status handler. -/
def statusName : OrderStatus → String
  | OrderStatus.pending => "pending"
  | OrderStatus.confirmed => "confirmed"
  | OrderStatus.preparing => "preparing"
  | OrderStatus.ready => "ready"
  | OrderStatus.rejected => "rejected"
  | OrderStatus.picked_up => "picked_up"

/-- One `{ menuId, quantity }` line of the create-order body. -/
structure OrderLine where
  menuId : String
  quantity : Int
deriving DecidableEq

/-- Create-order request body (client-controlled). -/
structure CreateOrderReq where
  items : List OrderLine
  pickupType : String
  pickupTime : Option String
deriving DecidableEq

/-- The pre-transaction batch fetch
`prisma.menuItem.findMany({ where: { id: { in: itemIds } } })`. -/
def fetchMenu (db : DB) (lines : List OrderLine) : List MenuItem :=
  db.menuItems.filter (fun m => (lines.map (fun it => it.menuId)).contains m.id)

/-- The validation loop of the create-order handler: first failing
line's error message, or `none` when all lines pass.  Each line is
checked against the fetched snapshot (per line, not cumulatively). -/
def validateLines (fetched : List MenuItem) : List OrderLine → Option String
  | [] => none
  | it :: rest =>
    match fetched.find? (fun m => m.id == it.menuId) with
    | none => some ("Item " ++ it.menuId ++ " not found")
    | some mi =>
      if mi.availability = false then some (mi.name ++ " is not available")
      else
        match mi.stockLimit with
        | some s =>
          if s < it.quantity then some (mi.name ++ " has insufficient stock")
          else validateLines fetched rest
        | none => validateLines fetched rest

/-- `menuItems.find(m => m.id === it.menuId)!.price` on the fetched
snapshot; the default is never reached after validation. -/
def fetchedPrice (fetched : List MenuItem) (x : String) : Int :=
  ((fetched.find? (fun m => m.id == x)).map (fun m => m.price)).getD 0

/-- The `items.reduce((sum, it) => sum + Number(mi.price) * it.quantity, 0)`
total, over the snapshot prices. -/
def orderTotal (fetched : List MenuItem) (lines : List OrderLine) : Int :=
  lines.foldl (fun s it => s + fetchedPrice fetched it.menuId * it.quantity) 0

/-- The `orderItems.create` payload for one line: quantity and
`priceAtOrder` frozen from the snapshot. -/
def mkOrderItem (fetched : List MenuItem) (oid : String) (it : OrderLine) : OrderItem :=
  { orderId := oid, itemId := it.menuId, quantity := it.quantity,
    priceAtOrder := fetchedPrice fetched it.menuId }

/-- The new `Order` row inserted by `tx.order.create` (schema defaults
for status, payment status, customer type). -/
def mkNewOrder (u : String) (req : CreateOrderReq) (oid : String)
    (pt : PickupType) (total : Int) : Order :=
  { id := oid, userId := some u, status := OrderStatus.pending, pickupType := pt,
    pickupTime := req.pickupTime, totalPrice := total,
    paymentStatus := PaymentStatus.pending, paymentConfirmed := false,
    customerName := none, customerType := "student" }

/-- The inventory log row created for one line:
`{ staffId: null, changeType: "deduct", note: "Order #<id>" }`. -/
def mkDeductLog (oid : String) (it : OrderLine) : InventoryLog :=
  { staffId := none, itemId := it.menuId, changeType := ChangeType.deduct,
    quantity := it.quantity, note := "Order #" ++ oid }

/-- Whether the snapshot row for a line has a non-null stock limit —
the guard of the decrement (`if (mi.stockLimit !== null)`), read from
the pre-transaction fetch. -/
def lineDec (fetched : List MenuItem) (it : OrderLine) : Bool :=
  match fetched.find? (fun m => m.id == it.menuId) with
  | some mi => mi.stockLimit.isSome
  | none => false

/-- `tx.menuItem.update({ where: { id }, data: { stockLimit: { decrement: q } } })`:
an SQL-level decrement of the current row (null stays null). -/
def decItem (menu : List MenuItem) (x : String) (q : Int) : List MenuItem :=
  menu.map (fun m =>
    if m.id == x then { m with stockLimit := m.stockLimit.map (fun s => s - q) } else m)

/-- One iteration of the decrement-and-log loop inside the
transaction. -/
def applyLine (fetched : List MenuItem) (oid : String) (db : DB) (it : OrderLine) : DB :=
  let db1 :=
    if lineDec fetched it then
      { db with menuItems := decItem db.menuItems it.menuId it.quantity }
    else db
  { db1 with inventoryLogs := db1.inventoryLogs ++ [mkDeductLog oid it] }

/-- The notification row written after the create-order transaction. -/
def orderPlacedNote (u : String) (oid : String) : Notification :=
  { userId := u, orderId := oid,
    message := "Your order #" ++ oid ++ " has been placed successfully.",
    status := NotificationStatus.unread }

/-- The committed store of a successful create-order: order row plus
its order items, then the decrement-and-log loop, then the placed
notification (outside the transaction). -/
def commitOrder (db : DB) (u : String) (req : CreateOrderReq) (oid : String)
    (pt : PickupType) : DB :=
  let fetched := fetchMenu db req.items
  let newOrder := mkNewOrder u req oid pt (orderTotal fetched req.items)
  let db1 : DB := { db with
    orders := db.orders ++ [newOrder],
    orderItems := db.orderItems ++ req.items.map (mkOrderItem fetched oid) }
  let db2 := req.items.foldl (applyLine fetched oid) db1
  { db2 with notifications := db2.notifications ++ [orderPlacedNote u oid] }

/-- `POST /orders` (student): validation, then the atomic transaction,
then the notification.  `u` is the authenticated student's id, `oid`
the id the store assigns to the new order. -/
def createOrder (db : DB) (u : String) (req : CreateOrderReq) (oid : String) :
    DB × HResult Order :=
  if req.items.isEmpty then (db, HResult.err 400 "No items provided")
  else
    match parsePickupType req.pickupType with
    | none => (db, HResult.err 400 "Invalid pickup type")
    | some pt =>
      match validateLines (fetchMenu db req.items) req.items with
      | some msg => (db, HResult.err 400 msg)
      | none =>
        (commitOrder db u req oid pt,
         HResult.ok (mkNewOrder u req oid pt (orderTotal (fetchMenu db req.items) req.items)))

/-- The status-update notification message
(`Your order #<id> status is now: <status>.`). -/
def statusNote (uid : String) (o : Order) : Notification :=
  { userId := uid, orderId := o.id,
    message := "Your order #" ++ o.id ++ " status is now: " ++ statusName o.status ++ ".",
    status := NotificationStatus.unread }

/-- `PUT /orders/:id/status` (staff/admin).  Accepts any status in the
enum; `prisma.order.update` on a missing id throws, caught as 500;
the notification insert uses `updated.userId!`, so a null owner
violates the NOT NULL column and the catch block answers 500 — after
the status update itself has already been committed (no transaction
spans the two writes). -/
def updateStatus (db : DB) (oid : String) (statusStr : String) : DB × HResult Order :=
  if oid = "" then (db, HResult.err 400 "Order ID is required")
  else if statusStr = "" then (db, HResult.err 400 "Status is required")
  else
    match parseOrderStatus statusStr with
    | none => (db, HResult.err 400 "Invalid status")
    | some st =>
      match findOrder db oid with
      | none => (db, HResult.err 500 "Failed to update order status")
      | some o =>
        let o' := { o with status := st }
        let db1 : DB :=
          { db with orders := db.orders.map (fun q => if q.id == oid then o' else q) }
        match o'.userId with
        | some uid =>
          ({ db1 with notifications := db1.notifications ++ [statusNote uid o'] },
           HResult.ok o')
        | none => (db1, HResult.err 500 "Failed to update order status")

/-- `PATCH /orders/:id/cancel` (student): own, pending orders only;
sets status to rejected. -/
def cancelOrder (db : DB) (caller : String) (oid : String) : DB × HResult Order :=
  if oid = "" then (db, HResult.err 400 "Order ID is required")
  else
    match findOrder db oid with
    | none => (db, HResult.err 404 "Order not found")
    | some o =>
      if o.userId = some caller then
        if o.status = OrderStatus.pending then
          let o' := { o with status := OrderStatus.rejected }
          ({ db with orders := db.orders.map (fun q => if q.id == oid then o' else q) },
           HResult.ok o')
        else (db, HResult.err 400 "Only pending orders can be cancelled")
      else (db, HResult.err 403 "You can only cancel your own orders")

/-- `POST /payments` request body. -/
structure PaymentReq where
  orderId : Option String
  customerName : Option String
  customerType : Option String
  amountReceived : Option Int
deriving DecidableEq

/-- The linked order's update performed by `createPayment`:
`paymentStatus: "paid"`, `status: "picked_up"`, and the spread of the
truthy customer fields. -/
def paidUpdate (req : PaymentReq) (q : Order) : Order :=
  { q with
      paymentStatus := PaymentStatus.paid
      status := OrderStatus.picked_up
      customerName := (match req.customerName with
        | some c => some c
        | none => q.customerName)
      customerType := (match req.customerType with
        | some c => c
        | none => q.customerType) }

/-- `createPayment` (controllers/payments.ts).  `!amountReceived` is a
JavaScript truthiness test, so a present zero is rejected like a
missing value.  With a linked order the due amount is the order's
stored total; without one it equals the amount received.  No check
constrains the sign of the change. -/
def createPayment (db : DB) (caller : String) (req : PaymentReq) (pid : String) :
    DB × HResult Payment :=
  match req.amountReceived with
  | none => (db, HResult.err 400 "Amount received is required.")
  | some a =>
    if a = 0 then (db, HResult.err 400 "Amount received is required.")
    else
      match req.orderId with
      | some oid =>
        match findOrder db oid with
        | none => (db, HResult.err 404 "Order not found.")
        | some ord =>
          let pay : Payment :=
            { id := pid, orderId := some oid, processedById := caller,
              amountDue := ord.totalPrice, amountReceived := a,
              change := a - ord.totalPrice, paymentMethod := "cash" }
          let db1 : DB := { db with payments := db.payments ++ [pay] }
          ({ db1 with orders :=
              db1.orders.map (fun q => if q.id == oid then paidUpdate req q else q) },
           HResult.ok pay)
      | none =>
        let pay : Payment :=
          { id := pid, orderId := none, processedById := caller,
            amountDue := a, amountReceived := a,
            change := a - a, paymentMethod := "cash" }
        ({ db with payments := db.payments ++ [pay] }, HResult.ok pay)

/-- `PATCH /notifications/mark-all`:
`updateMany({ where: { userId, status: "unread" }, data: { status: "read" } })`. -/
def markAllRead (db : DB) (u : String) : DB :=
  { db with notifications := db.notifications.map (fun n =>
      if n.userId == u && n.status == NotificationStatus.unread then
        { n with status := NotificationStatus.read }
      else n) }

/-- `GET /notifications/unread-count`: count of the caller's unread
rows. -/
def unreadCount (db : DB) (u : String) : Nat :=
  (db.notifications.filter (fun n =>
    n.userId == u && n.status == NotificationStatus.unread)).length

/-- Outcome of extracting and verifying the bearer token: absent,
present but failing `jwt.verify` (bad signature or expired), or valid
with its `{ userId, role }` payload. -/
inductive TokenCheck
  | valid (userId : String) (role : Role)
  | invalid
deriving DecidableEq

/-- The identity the middleware attaches to the request
(`req.user = { id: decoded.userId, role: decoded.role }`). -/
structure AuthUser where
  id : String
  role : Role
deriving DecidableEq

/-- `authenticateToken` middleware: 401 without a token, 403 when
`jwt.verify` throws, otherwise the decoded identity. -/
def authenticateToken : Option TokenCheck → HResult AuthUser
  | none => HResult.err 401 "Access denied. No token provided."
  | some TokenCheck.invalid => HResult.err 403 "Invalid token"
  | some (TokenCheck.valid uid r) => HResult.ok { id := uid, role := r }

/-- `requireRole(roles)` middleware: 401 without an attached identity,
403 on a role outside the allow-list. -/
def requireRole (roles : List Role) : Option AuthUser → HResult AuthUser
  | none => HResult.err 401 "Not authenticated"
  | some u =>
    if roles.contains u.role then HResult.ok u
    else HResult.err 403 "Forbidden: insufficient role"

/-- A route guarded by `authenticateToken` then `requireRole(roles)`:
the handler runs only when both middlewares call `next()`. -/
def runProtected {α : Type} (roles : List Role) (tok : Option TokenCheck)
    (handler : AuthUser → DB → DB × HResult α) (db : DB) : DB × HResult α :=
  match authenticateToken tok with
  | HResult.err c m => (db, HResult.err c m)
  | HResult.ok u =>
    match requireRole roles (some u) with
    | HResult.err c m => (db, HResult.err c m)
    | HResult.ok u2 => handler u2 db

/-- A route guarded by `authenticateToken` alone (the payments
router: `router.use(authenticateToken)`, no role gate). -/
def runAuthed {α : Type} (tok : Option TokenCheck)
    (handler : AuthUser → DB → DB × HResult α) (db : DB) : DB × HResult α :=
  match authenticateToken tok with
  | HResult.err c m => (db, HResult.err c m)
  | HResult.ok u => handler u db

/-- `POST /payments` as routed: authentication only, then
`createPayment` with the caller as processing user. -/
def postPayment (tok : Option TokenCheck) (db : DB) (req : PaymentReq)
    (pid : String) : DB × HResult Payment :=
  runAuthed tok (fun u d => createPayment d u.id req pid) db

/-! ### Generic list lemmas -/

/-- Folding `+ f x` over a list adds the sum of the mapped list. -/
theorem foldl_add_map {β : Type} (f : β → Int) :
    ∀ (l : List β) (s : Int), l.foldl (fun a x => a + f x) s = s + (l.map f).sum := by
  intro l
  induction l with
  | nil => intro s; simp
  | cons a t ih =>
    intro s
    simp only [List.foldl_cons, List.map_cons, List.sum_cons, ih]
    ring

/-- `find?` commutes with a map that preserves the predicate. -/
theorem find?_map_of_pres {β : Type} (f : β → β) (p : β → Bool)
    (hf : ∀ b, p (f b) = p b) :
    ∀ (l : List β), (l.map f).find? p = (l.find? p).map f := by
  intro l
  induction l with
  | nil => rfl
  | cons a t ih =>
    simp only [List.map_cons, List.find?]
    rw [hf a]
    cases p a
    · simpa using ih
    · rfl

/-- The batch fetch keeps every row whose id is in the requested list,
so looking one of those ids up in the fetched list equals looking it
up in the whole table. -/
theorem filter_in_find? (ids : List String) (x : String) (hx : x ∈ ids) :
    ∀ (l : List MenuItem),
      (l.filter (fun m => ids.contains m.id)).find? (fun m => m.id == x) =
        l.find? (fun m => m.id == x) := by
  intro l
  induction l with
  | nil => rfl
  | cons a t ih =>
    simp only [List.filter_cons]
    by_cases hmem : a.id ∈ ids
    · rw [if_pos (by simpa using hmem)]
      by_cases hax : a.id = x
      · rw [List.find?_cons_of_pos _ (by simpa using hax),
          List.find?_cons_of_pos _ (by simpa using hax)]
      · rw [List.find?_cons_of_neg _ (by simpa using hax),
          List.find?_cons_of_neg _ (by simpa using hax), ih]
    · rw [if_neg (by simpa using hmem)]
      have hax : ¬a.id = x := fun h => hmem (h ▸ hx)
      rw [List.find?_cons_of_neg _ (by simpa using hax), ih]

/-- With pairwise-distinct ids, `find?` by a member's id returns that
member. -/
theorem find?_id_of_nodup {β : Type} (idf : β → String) :
    ∀ (l : List β) (b : β), (l.map idf).Nodup → b ∈ l →
      l.find? (fun x => idf x == idf b) = some b := by
  intro l
  induction l with
  | nil => intro b _ hb; cases hb
  | cons a t ih =>
    intro b hN hb
    rw [List.map_cons, List.nodup_cons] at hN
    obtain ⟨hna, hNt⟩ := hN
    rcases List.mem_cons.mp hb with rfl | hbt
    · simp [List.find?]
    · have hne : idf a ≠ idf b := by
        intro h
        exact hna (h ▸ List.mem_map_of_mem idf hbt)
      rw [List.find?_cons_of_neg _ (by simpa using hne), ih b hNt hbt]

/-! ### Create-order machinery -/

/-- Total quantity a request asks for a given item id, across all of
its lines. -/
def reqQty (lines : List OrderLine) (x : String) : Int :=
  (lines.map (fun it => if it.menuId == x then it.quantity else 0)).sum

/-- Total quantity of the lines for `x` whose snapshot row has a
finite stock limit — exactly the lines the decrement loop acts on. -/
def condQty (fetched : List MenuItem) (lines : List OrderLine) (x : String) : Int :=
  (lines.map (fun it =>
    if it.menuId == x && lineDec fetched it then it.quantity else 0)).sum

theorem reqQty_cons (a : OrderLine) (t : List OrderLine) (y : String) :
    reqQty (a :: t) y = (if a.menuId == y then a.quantity else 0) + reqQty t y := by
  simp [reqQty]

theorem condQty_cons (fetched : List MenuItem) (a : OrderLine) (t : List OrderLine)
    (y : String) :
    condQty fetched (a :: t) y =
      (if a.menuId == y && lineDec fetched a then a.quantity else 0) +
        condQty fetched t y := by
  simp [condQty]

/-- When the id resolves in the snapshot to a row with a finite stock
limit, the guarded and the unguarded per-id quantities agree. -/
theorem condQty_eq_reqQty (fetched : List MenuItem) (lines : List OrderLine)
    (y : String) (mi : MenuItem)
    (hf : fetched.find? (fun m => m.id == y) = some mi)
    (hs : mi.stockLimit.isSome = true) :
    condQty fetched lines y = reqQty lines y := by
  unfold condQty reqQty
  congr 1
  apply List.map_congr_left
  intro it _
  by_cases h : (it.menuId == y) = true
  · have hxy : it.menuId = y := by simpa using h
    simp [lineDec, hxy, hf, hs]
  · simp [h]

theorem reqQty_eq_zero (lines : List OrderLine) (y : String)
    (h : ∀ it ∈ lines, it.menuId ≠ y) : reqQty lines y = 0 := by
  unfold reqQty
  apply List.sum_eq_zero
  intro x hx
  obtain ⟨it, hit, rfl⟩ := List.mem_map.mp hx
  simp [h it hit]

/-- With pairwise-distinct line ids, the total requested for a line's
id is that line's quantity. -/
theorem reqQty_of_nodup (lines : List OrderLine)
    (hN : (lines.map (fun it => it.menuId)).Nodup) (it : OrderLine)
    (hit : it ∈ lines) (y : String) (hy : it.menuId = y) :
    reqQty lines y = it.quantity := by
  induction lines with
  | nil => cases hit
  | cons a t ih =>
    have hna : a.menuId ∉ t.map (fun j => j.menuId) :=
      (List.nodup_cons.mp (by simpa using hN)).1
    have hN' : (t.map (fun j => j.menuId)).Nodup :=
      (List.nodup_cons.mp (by simpa using hN)).2
    rw [reqQty_cons]
    rcases List.mem_cons.mp hit with rfl | hmem
    · have h0 : reqQty t y = 0 := by
        apply reqQty_eq_zero
        intro j hj hjy
        exact hna (by rw [hy, ← hjy]; exact List.mem_map_of_mem _ hj)
      simp [hy, h0]
    · have hay : a.menuId ≠ y := by
        intro h
        exact hna (by rw [h, ← hy]; exact List.mem_map_of_mem _ hmem)
      have := ih hN' hmem
      simp [hay, this]

/-- Passing the validation loop means: every line's id resolves in the
snapshot to an available row whose stock limit, when finite, covers
the line's quantity. -/
theorem validateLines_none_spec (fetched : List MenuItem) :
    ∀ (lines : List OrderLine), validateLines fetched lines = none →
      ∀ it ∈ lines, ∃ mi,
        fetched.find? (fun m => m.id == it.menuId) = some mi ∧
        mi.availability = true ∧
        ∀ s, mi.stockLimit = some s → it.quantity ≤ s := by
  intro lines
  induction lines with
  | nil => intro _ it hit; cases hit
  | cons a t ih =>
    intro h it hit
    rw [validateLines] at h
    cases hf : fetched.find? (fun m => m.id == a.menuId) with
    | none => rw [hf] at h; dsimp only at h; cases h
    | some mi =>
      rw [hf] at h
      dsimp only at h
      by_cases hav : mi.availability = false
      · rw [if_pos hav] at h; cases h
      · rw [if_neg hav] at h
        have hav' : mi.availability = true := by
          cases hb : mi.availability
          · exact absurd hb hav
          · rfl
        cases hsl : mi.stockLimit with
        | none =>
          rw [hsl] at h
          dsimp only at h
          rcases List.mem_cons.mp hit with rfl | hmem
          · exact ⟨mi, hf, hav', by intro s hs; rw [hsl] at hs; cases hs⟩
          · exact ih h it hmem
        | some s =>
          rw [hsl] at h
          dsimp only at h
          by_cases hlt : s < a.quantity
          · rw [if_pos hlt] at h; cases h
          · rw [if_neg hlt] at h
            rcases List.mem_cons.mp hit with rfl | hmem
            · refine ⟨mi, hf, hav', ?_⟩
              intro s' hs'
              rw [hsl] at hs'
              injection hs' with e
              subst e
              omega
            · exact ih h it hmem

/-- Field-level description of one decrement-and-log iteration. -/
theorem applyLine_fields (fetched : List MenuItem) (oid : String) (db : DB)
    (it : OrderLine) :
    (applyLine fetched oid db it).orders = db.orders ∧
    (applyLine fetched oid db it).orderItems = db.orderItems ∧
    (applyLine fetched oid db it).notifications = db.notifications ∧
    (applyLine fetched oid db it).payments = db.payments ∧
    (applyLine fetched oid db it).inventoryLogs =
      db.inventoryLogs ++ [mkDeductLog oid it] ∧
    (applyLine fetched oid db it).menuItems =
      (if lineDec fetched it then decItem db.menuItems it.menuId it.quantity
       else db.menuItems) := by
  by_cases h : lineDec fetched it = true <;> simp [applyLine, h]

/-- `decItem` preserves the id column. -/
theorem decItem_ids (l : List MenuItem) (x : String) (q : Int) :
    (decItem l x q).map (fun m => m.id) = l.map (fun m => m.id) := by
  unfold decItem
  rw [List.map_map]
  apply List.map_congr_left
  intro m _
  by_cases h : m.id = x <;> simp [h]

/-- The decrement-and-log loop: every table except the menu is either
unchanged or extended by one log row per line, and the id column of
the menu is preserved. -/
theorem foldl_applyLine_fields (fetched : List MenuItem) (oid : String) :
    ∀ (lines : List OrderLine) (db : DB),
      (lines.foldl (applyLine fetched oid) db).orders = db.orders ∧
      (lines.foldl (applyLine fetched oid) db).orderItems = db.orderItems ∧
      (lines.foldl (applyLine fetched oid) db).notifications = db.notifications ∧
      (lines.foldl (applyLine fetched oid) db).payments = db.payments ∧
      (lines.foldl (applyLine fetched oid) db).inventoryLogs =
        db.inventoryLogs ++ lines.map (mkDeductLog oid) ∧
      (lines.foldl (applyLine fetched oid) db).menuItems.map (fun m => m.id) =
        db.menuItems.map (fun m => m.id) := by
  intro lines
  induction lines with
  | nil => intro db; simp
  | cons a t ih =>
    intro db
    obtain ⟨h1, h2, h3, h4, h5, h6⟩ := ih (applyLine fetched oid db a)
    obtain ⟨g1, g2, g3, g4, g5, g6⟩ := applyLine_fields fetched oid db a
    refine ⟨?_, ?_, ?_, ?_, ?_, ?_⟩
    · rw [List.foldl_cons, h1, g1]
    · rw [List.foldl_cons, h2, g2]
    · rw [List.foldl_cons, h3, g3]
    · rw [List.foldl_cons, h4, g4]
    · rw [List.foldl_cons, h5, g5]
      simp [List.append_assoc]
    · rw [List.foldl_cons, h6, g6]
      by_cases h : lineDec fetched a = true
      · rw [if_pos h, decItem_ids]
      · rw [if_neg h]

/-- Per-id effect of the decrement loop on the menu: the first row
with a given id has its stock limit lowered by the guarded total
quantity for that id (null stays null). -/
theorem foldl_applyLine_stock (fetched : List MenuItem) (oid : String) :
    ∀ (lines : List OrderLine) (db : DB) (y : String),
      (lines.foldl (applyLine fetched oid) db).menuItems.find? (fun m => m.id == y) =
        (db.menuItems.find? (fun m => m.id == y)).map (fun m =>
          { m with stockLimit :=
              m.stockLimit.map (fun s => s - condQty fetched lines y) }) := by
  intro lines
  induction lines with
  | nil =>
    intro db y
    simp only [List.foldl_nil, condQty, List.map_nil, List.sum_nil]
    cases hfind : db.menuItems.find? (fun m => m.id == y) with
    | none => rfl
    | some m => simp
  | cons a t ih =>
    intro db y
    rw [List.foldl_cons, ih (applyLine fetched oid db a) y]
    have g6 := (applyLine_fields fetched oid db a).2.2.2.2.2
    rw [g6, condQty_cons]
    by_cases hdec : lineDec fetched a = true
    · rw [if_pos hdec]
      unfold decItem
      rw [find?_map_of_pres _ _ (by
        intro b
        by_cases hb : (b.id == a.menuId) = true <;> simp [hb])]
      cases hfind : db.menuItems.find? (fun m => m.id == y) with
      | none => rfl
      | some m =>
        have hmy : m.id = y := by simpa using List.find?_some hfind
        dsimp only [Option.map]
        by_cases hay : a.menuId = y
        · have hma : (m.id == a.menuId) = true := by simp [hmy, hay]
          have haybeq : (a.menuId == y) = true := by simp [hay]
          rw [if_pos hma, haybeq, hdec]
          simp only [Bool.and_self, if_true]
          congr 1
          cases m.stockLimit with
          | none => rfl
          | some s => simp [sub_sub]
        · have hma : ¬((m.id == a.menuId) = true) := by
            simp only [beq_iff_eq, hmy]
            exact fun heq => hay heq.symm
          have haybeq : (a.menuId == y) = false := by
            simp [hay]
          rw [if_neg hma, haybeq]
          simp
    · rw [if_neg hdec]
      simp [hdec]

theorem condQty_eq_zero (fetched : List MenuItem) (lines : List OrderLine) (y : String)
    (h : ∀ it ∈ lines, it.menuId ≠ y) : condQty fetched lines y = 0 := by
  unfold condQty
  apply List.sum_eq_zero
  intro x hx
  obtain ⟨it, hit, rfl⟩ := List.mem_map.mp hx
  simp [h it hit]

/-- Control-flow analysis of `createOrder`: either some validation
failed, the store is untouched and a 400 is returned, or every check
passed and the committed store and result are as in the transaction
body. -/
theorem createOrder_cases (db : DB) (u : String) (req : CreateOrderReq) (oid : String) :
    (∃ msg, createOrder db u req oid = (db, HResult.err 400 msg)) ∨
    (∃ pt, parsePickupType req.pickupType = some pt ∧
      req.items.isEmpty = false ∧
      validateLines (fetchMenu db req.items) req.items = none ∧
      createOrder db u req oid =
        (commitOrder db u req oid pt,
         HResult.ok (mkNewOrder u req oid pt
           (orderTotal (fetchMenu db req.items) req.items)))) := by
  by_cases hE : req.items.isEmpty = true
  · left
    exact ⟨"No items provided", by unfold createOrder; rw [if_pos hE]⟩
  · cases hP : parsePickupType req.pickupType with
    | none =>
      left
      refine ⟨"Invalid pickup type", ?_⟩
      unfold createOrder
      rw [if_neg hE, hP]
    | some pt =>
      cases hV : validateLines (fetchMenu db req.items) req.items with
      | some msg =>
        left
        refine ⟨msg, ?_⟩
        unfold createOrder
        rw [if_neg hE, hP]
        dsimp only
        rw [hV]
      | none =>
        right
        refine ⟨pt, rfl, by simpa using hE, rfl, ?_⟩
        unfold createOrder
        rw [if_neg hE, hP]
        dsimp only
        rw [hV]

/-- A create-order error leaves the store untouched and is a 400. -/
theorem createOrder_err_state (db : DB) (u : String) (req : CreateOrderReq)
    (oid : String) (c : Nat) (m : String)
    (h : (createOrder db u req oid).2 = HResult.err c m) :
    (createOrder db u req oid).1 = db ∧ c = 400 := by
  rcases createOrder_cases db u req oid with ⟨msg, he⟩ | ⟨pt, _, _, _, he⟩
  · rw [he] at h ⊢
    dsimp only at h ⊢
    injection h with h1 h2
    exact ⟨rfl, h1.symm⟩
  · rw [he] at h
    dsimp only at h
    cases h

/-- A create-order success passed every check, returns the new order
row, and commits the transaction state. -/
theorem createOrder_ok_elim (db : DB) (u : String) (req : CreateOrderReq)
    (oid : String) (o : Order)
    (h : (createOrder db u req oid).2 = HResult.ok o) :
    ∃ pt, parsePickupType req.pickupType = some pt ∧
      req.items.isEmpty = false ∧
      validateLines (fetchMenu db req.items) req.items = none ∧
      o = mkNewOrder u req oid pt (orderTotal (fetchMenu db req.items) req.items) ∧
      (createOrder db u req oid).1 = commitOrder db u req oid pt := by
  rcases createOrder_cases db u req oid with ⟨msg, he⟩ | ⟨pt, hP, hE, hV, he⟩
  · rw [he] at h
    dsimp only at h
    cases h
  · rw [he] at h ⊢
    dsimp only at h ⊢
    injection h with h1
    exact ⟨pt, hP, hE, hV, h1.symm, rfl⟩

/-- Field-level description of the committed transaction state. -/
theorem commitOrder_fields (db : DB) (u : String) (req : CreateOrderReq)
    (oid : String) (pt : PickupType) :
    (commitOrder db u req oid pt).orders =
      db.orders ++ [mkNewOrder u req oid pt (orderTotal (fetchMenu db req.items) req.items)] ∧
    (commitOrder db u req oid pt).orderItems =
      db.orderItems ++ req.items.map (mkOrderItem (fetchMenu db req.items) oid) ∧
    (commitOrder db u req oid pt).inventoryLogs =
      db.inventoryLogs ++ req.items.map (mkDeductLog oid) ∧
    (commitOrder db u req oid pt).notifications =
      db.notifications ++ [orderPlacedNote u oid] ∧
    (commitOrder db u req oid pt).payments = db.payments ∧
    (commitOrder db u req oid pt).menuItems.map (fun m => m.id) =
      db.menuItems.map (fun m => m.id) ∧
    ∀ y, (commitOrder db u req oid pt).menuItems.find? (fun m => m.id == y) =
      (db.menuItems.find? (fun m => m.id == y)).map (fun m =>
        { m with stockLimit := m.stockLimit.map (fun s =>
            s - condQty (fetchMenu db req.items) req.items y) }) := by
  obtain ⟨f1, f2, f3, f4, f5, f6⟩ :=
    foldl_applyLine_fields (fetchMenu db req.items) oid req.items
      { db with
          orders := db.orders ++
            [mkNewOrder u req oid pt (orderTotal (fetchMenu db req.items) req.items)]
          orderItems := db.orderItems ++ req.items.map (mkOrderItem (fetchMenu db req.items) oid) }
  refine ⟨?_, ?_, ?_, ?_, ?_, ?_, ?_⟩
  · exact f1
  · exact f2
  · exact f5
  · unfold commitOrder
    dsimp only
    rw [f3]
  · exact f4
  · exact f6
  · intro y
    have := foldl_applyLine_stock (fetchMenu db req.items) oid req.items
      { db with
          orders := db.orders ++
            [mkNewOrder u req oid pt (orderTotal (fetchMenu db req.items) req.items)]
          orderItems := db.orderItems ++ req.items.map (mkOrderItem (fetchMenu db req.items) oid) }
      y
    exact this

/-- Per-item stock effect of a successful create-order: for a store
with distinct item ids, each item's stock limit drops by the total
quantity requested for its id (null stock limits stay null). -/
theorem createOrder_stock (db : DB) (u : String) (req : CreateOrderReq) (oid : String)
    (o : Order) (hN : (db.menuItems.map (fun m => m.id)).Nodup)
    (h : (createOrder db u req oid).2 = HResult.ok o) :
    ∀ m ∈ db.menuItems,
      findMenuItem (createOrder db u req oid).1 m.id =
        some { m with stockLimit := m.stockLimit.map (fun s => s - reqQty req.items m.id) } := by
  obtain ⟨pt, hP, hE, hV, ho, hdb⟩ := createOrder_ok_elim db u req oid o h
  intro m hm
  rw [hdb]
  unfold findMenuItem
  rw [(commitOrder_fields db u req oid pt).2.2.2.2.2.2 m.id]
  have hNfind : db.menuItems.find? (fun x => x.id == m.id) = some m :=
    find?_id_of_nodup (fun m => m.id) db.menuItems m hN hm
  rw [hNfind]
  dsimp only [Option.map]
  congr 2
  by_cases hmemids : m.id ∈ req.items.map (fun it => it.menuId)
  · cases hsl : m.stockLimit with
    | none => rfl
    | some s =>
      have hfound : (fetchMenu db req.items).find? (fun x => x.id == m.id) = some m := by
        unfold fetchMenu
        rw [filter_in_find? _ _ hmemids]
        exact hNfind
      rw [condQty_eq_reqQty (fetchMenu db req.items) req.items m.id m hfound
        (by rw [hsl]; rfl)]
  · have h1 : condQty (fetchMenu db req.items) req.items m.id = 0 :=
      condQty_eq_zero _ _ _ (fun it hit hity =>
        hmemids (hity ▸ List.mem_map_of_mem _ hit))
    have h2 : reqQty req.items m.id = 0 :=
      reqQty_eq_zero _ _ (fun it hit hity =>
        hmemids (hity ▸ List.mem_map_of_mem _ hit))
    rw [h1, h2]

/-- All stock limits are non-negative (null counts as zero). -/
def stocksNonneg (db : DB) : Prop :=
  ∀ m ∈ db.menuItems, 0 ≤ m.stockLimit.getD 0

/-- The item ids of the store are pairwise distinct (primary key). -/
def menuIdsNodup (db : DB) : Prop :=
  (db.menuItems.map (fun m => m.id)).Nodup

/-- A sequence of create-order requests, each a triple of caller id,
body and assigned order id, run one after another. -/
def runOrders (db : DB) (reqs : List (String × CreateOrderReq × String)) : DB :=
  reqs.foldl (fun d t => (createOrder d t.1 t.2.1 t.2.2).1) db

/-- One create-order request — successful or not — preserves
non-negative stocks and distinct ids, provided its lines reference
pairwise-distinct items. -/
theorem createOrder_step_preserves (db : DB) (u : String) (req : CreateOrderReq)
    (oid : String) (hS : stocksNonneg db) (hN : menuIdsNodup db)
    (hL : (req.items.map (fun it => it.menuId)).Nodup) :
    stocksNonneg (createOrder db u req oid).1 ∧ menuIdsNodup (createOrder db u req oid).1 := by
  rcases hres : (createOrder db u req oid).2 with ⟨c, msg⟩ | ⟨o⟩
  · obtain ⟨h1, _⟩ := createOrder_err_state db u req oid c msg hres
    rw [h1]
    exact ⟨hS, hN⟩
  · obtain ⟨pt, hP, hE, hV, ho, hdb⟩ := createOrder_ok_elim db u req oid o hres
    have hidseq : (createOrder db u req oid).1.menuItems.map (fun m => m.id) =
        db.menuItems.map (fun m => m.id) := by
      rw [hdb]
      exact (commitOrder_fields db u req oid pt).2.2.2.2.2.1
    constructor
    · intro m' hm'
      have hmem_id : m'.id ∈ db.menuItems.map (fun m => m.id) := by
        rw [← hidseq]
        exact List.mem_map_of_mem _ hm'
      obtain ⟨m, hm, hmid⟩ := List.mem_map.mp hmem_id
      have hN' : ((createOrder db u req oid).1.menuItems.map (fun m => m.id)).Nodup := by
        rw [hidseq]
        exact hN
      have hfind1 : (createOrder db u req oid).1.menuItems.find? (fun x => x.id == m'.id) =
          some m' := find?_id_of_nodup (fun m => m.id) _ m' hN' hm'
      have hfind2 := createOrder_stock db u req oid o hN hres m hm
      rw [hmid] at hfind2
      unfold findMenuItem at hfind2
      rw [hfind1] at hfind2
      injection hfind2 with hm'eq
      rw [hm'eq]
      dsimp only
      cases hsl : m.stockLimit with
      | none => simp
      | some s =>
        have hs0 : 0 ≤ s := by
          have := hS m hm
          rw [hsl] at this
          simpa using this
        dsimp only [Option.map]
        by_cases hline : ∃ it ∈ req.items, it.menuId = m'.id
        · obtain ⟨it, hit, hity⟩ := hline
          have hq : reqQty req.items m'.id = it.quantity :=
            reqQty_of_nodup req.items hL it hit m'.id hity
          obtain ⟨mi, hfmi, _, hstock⟩ :=
            validateLines_none_spec (fetchMenu db req.items) req.items hV it hit
          have hmemids : it.menuId ∈ req.items.map (fun j => j.menuId) :=
            List.mem_map_of_mem _ hit
          have hfound : (fetchMenu db req.items).find? (fun x => x.id == it.menuId) =
              some m := by
            unfold fetchMenu
            rw [filter_in_find? _ _ hmemids, hity, ← hmid]
            exact find?_id_of_nodup (fun x => x.id) db.menuItems m
              (show (db.menuItems.map (fun x => x.id)).Nodup from hN) hm
          rw [hfmi] at hfound
          injection hfound with hmi
          subst hmi
          have hqs : it.quantity ≤ s := hstock s hsl
          rw [hq]
          simp
          omega
        · have hq : reqQty req.items m'.id = 0 :=
            reqQty_eq_zero _ _ (fun it hit hity => hline ⟨it, hit, hity⟩)
          rw [hq]
          simp
          omega
    · unfold menuIdsNodup
      rw [hidseq]
      exact hN

/-- Any sequence of create-order requests with per-request distinct
line ids preserves non-negative stocks. -/
theorem runOrders_stocksNonneg :
    ∀ (reqs : List (String × CreateOrderReq × String)) (db : DB),
      stocksNonneg db → menuIdsNodup db →
      (∀ r ∈ reqs, ((r.2.1.items.map (fun it => it.menuId)).Nodup)) →
      stocksNonneg (runOrders db reqs) := by
  intro reqs
  induction reqs with
  | nil => intro db hS _ _; exact hS
  | cons r t ih =>
    intro db hS hN hAll
    obtain ⟨hS', hN'⟩ := createOrder_step_preserves db r.1 r.2.1 r.2.2 hS hN
      (hAll r (List.mem_cons_self r t))
    exact ih _ hS' hN' (fun q hq => hAll q (List.mem_cons_of_mem r hq))

/-! ### Spec-side price measure -/

/-- Unit price of an item id as read from the menu table (spec side:
"the unit price of the referenced MenuItem"). -/
def unitPrice (menu : List MenuItem) (x : String) : Int :=
  ((menu.find? (fun m => m.id == x)).map (fun m => m.price)).getD 0

theorem orderTotal_eq_sum (fetched : List MenuItem) (lines : List OrderLine) :
    orderTotal fetched lines =
      (lines.map (fun it => fetchedPrice fetched it.menuId * it.quantity)).sum := by
  unfold orderTotal
  simpa using foldl_add_map (fun it => fetchedPrice fetched it.menuId * it.quantity) lines 0

/-- For a requested line, the snapshot price is the table price. -/
theorem fetchedPrice_eq_unitPrice (db : DB) (lines : List OrderLine) (it : OrderLine)
    (hit : it ∈ lines) :
    fetchedPrice (fetchMenu db lines) it.menuId = unitPrice db.menuItems it.menuId := by
  unfold fetchedPrice unitPrice fetchMenu
  rw [filter_in_find? (lines.map (fun j => j.menuId)) it.menuId (List.mem_map_of_mem _ hit)]

/-- The committed total of a successful create-order is the sum of
table unit prices times quantities. -/
theorem createOrder_total (db : DB) (u : String) (req : CreateOrderReq) (oid : String)
    (o : Order) (h : (createOrder db u req oid).2 = HResult.ok o) :
    o.totalPrice =
      (req.items.map (fun it => unitPrice db.menuItems it.menuId * it.quantity)).sum := by
  obtain ⟨pt, hP, hE, hV, ho, hdb⟩ := createOrder_ok_elim db u req oid o h
  rw [ho]
  show orderTotal (fetchMenu db req.items) req.items = _
  rw [orderTotal_eq_sum]
  exact congrArg List.sum (List.map_congr_left (fun it hit => by
    rw [fetchedPrice_eq_unitPrice db req.items it hit]))

/-! ### Concrete fixtures -/

def itemA0 : MenuItem :=
  { id := "A", name := "Adobo", price := 50, availability := true, stockLimit := some 5 }

def itemB0 : MenuItem :=
  { id := "B", name := "Buko", price := 20, availability := true, stockLimit := none }

def db0 : DB :=
  { menuItems := [itemA0, itemB0], orders := [], orderItems := [],
    inventoryLogs := [], notifications := [], payments := [] }

def req0 : CreateOrderReq :=
  { items := [{ menuId := "A", quantity := 2 }, { menuId := "B", quantity := 1 }],
    pickupType := "take_out", pickupTime := none }

def ord0 : Order := mkNewOrder "u1" req0 "o1" PickupType.take_out 120

def reqEmpty : CreateOrderReq :=
  { items := [], pickupType := "dine_in", pickupTime := none }

def cxItemA : MenuItem :=
  { id := "A", name := "Adobo", price := 10, availability := true, stockLimit := some 1 }

def cxDB : DB :=
  { menuItems := [cxItemA], orders := [], orderItems := [],
    inventoryLogs := [], notifications := [], payments := [] }

def cxReq : CreateOrderReq :=
  { items := [{ menuId := "A", quantity := 1 }, { menuId := "A", quantity := 1 }],
    pickupType := "dine_in", pickupTime := none }

/-! ### Claims -/

/-- Claim C1: for every successful create-order, the committed total
price is the sum over the request lines of the fetched unit price
times the requested quantity; the body influences the total only
through item ids and quantities; and each created OrderItem freezes
`priceAtOrder` to that same fetched unit price. -/
theorem claim_C1 : ∀ (db : DB) (u : String) (req : CreateOrderReq) (oid : String)
    (o : Order), (createOrder db u req oid).2 = HResult.ok o →
    (o.totalPrice =
        (req.items.map (fun it => unitPrice db.menuItems it.menuId * it.quantity)).sum ∧
      (createOrder db u req oid).1.orderItems = db.orderItems ++ req.items.map (fun it =>
        ({ orderId := oid, itemId := it.menuId, quantity := it.quantity,
           priceAtOrder := unitPrice db.menuItems it.menuId } : OrderItem)) ∧
      ∀ (req2 : CreateOrderReq) (o2 : Order), req2.items = req.items →
        (createOrder db u req2 oid).2 = HResult.ok o2 → o2.totalPrice = o.totalPrice) := by
  intro db u req oid o h
  refine ⟨createOrder_total db u req oid o h, ?_, ?_⟩
  · obtain ⟨pt, hP, hE, hV, ho, hdb⟩ := createOrder_ok_elim db u req oid o h
    rw [hdb, (commitOrder_fields db u req oid pt).2.1]
    congr 1
    apply List.map_congr_left
    intro it hit
    unfold mkOrderItem
    rw [fetchedPrice_eq_unitPrice db req.items it hit]
  · intro req2 o2 hitems h2
    rw [createOrder_total db u req2 oid o2 h2, createOrder_total db u req oid o h, hitems]

theorem claim_C1_witness :
    ord0.totalPrice =
      (req0.items.map (fun it => unitPrice db0.menuItems it.menuId * it.quantity)).sum :=
  (claim_C1 db0 "u1" req0 "o1" ord0 (by decide)).1

/-- Claim C2 counterexample: a request with two lines for the same
item (stock 1, one unit each) passes the per-line validation, the
order succeeds, and the committed stock is −1 — the claim's
never-below-zero invariant fails even sequentially. -/
theorem claim_C2_counterexample :
    (createOrder cxDB "u1" cxReq "o1").2 =
      HResult.ok (mkNewOrder "u1" cxReq "o1" PickupType.dine_in 20) ∧
    findMenuItem (createOrder cxDB "u1" cxReq "o1").1 "A" =
      some { cxItemA with stockLimit := some (-1) } := by decide

/-- Claim C2 (amended): a successful create-order decrements each
item's finite stock by exactly the total quantity requested for that
item (null stock limits are never decremented), and — for requests
whose lines reference pairwise-distinct items — no sequence of
create-order requests drives any stock below zero. -/
theorem claim_C2 :
    (∀ (db : DB) (u : String) (req : CreateOrderReq) (oid : String) (o : Order),
      menuIdsNodup db → (createOrder db u req oid).2 = HResult.ok o →
      ∀ m ∈ db.menuItems,
        findMenuItem (createOrder db u req oid).1 m.id =
          some { m with stockLimit :=
            m.stockLimit.map (fun s => s - reqQty req.items m.id) }) ∧
    (∀ (db : DB) (reqs : List (String × CreateOrderReq × String)),
      stocksNonneg db → menuIdsNodup db →
      (∀ r ∈ reqs, ((r.2.1.items.map (fun it => it.menuId)).Nodup)) →
      stocksNonneg (runOrders db reqs)) := by
  constructor
  · intro db u req oid o hN h m hm
    exact createOrder_stock db u req oid o hN h m hm
  · intro db reqs hS hN hAll
    exact runOrders_stocksNonneg reqs db hS hN hAll

theorem claim_C2_witness :
    findMenuItem (createOrder db0 "u1" req0 "o1").1 itemA0.id =
      some { itemA0 with stockLimit :=
        itemA0.stockLimit.map (fun s => s - reqQty req0.items itemA0.id) } :=
  claim_C2.1 db0 "u1" req0 "o1" ord0 (by unfold menuIdsNodup; decide) (by decide)
    itemA0 (by decide)

/-- Claim C3: create-order is atomic in the sequential model — every
error leaves the store untouched (and is a 400 detected before any
mutation: empty list, invalid pickup type, failed line validation),
while a success commits together the order row, all its order items,
one deduct log per line with no actor, and every stock decrement:
each item's stock limit drops by the guarded total quantity of the
finite-stock lines for its id (zero for unreferenced items, null
stock limits untouched). -/
theorem claim_C3 : ∀ (db : DB) (u : String) (req : CreateOrderReq) (oid : String),
    (∀ (c : Nat) (msg : String), (createOrder db u req oid).2 = HResult.err c msg →
      (createOrder db u req oid).1 = db ∧ c = 400) ∧
    (req.items.isEmpty = true →
      (createOrder db u req oid).2 = HResult.err 400 "No items provided") ∧
    (req.items.isEmpty = false → parsePickupType req.pickupType = none →
      (createOrder db u req oid).2 = HResult.err 400 "Invalid pickup type") ∧
    (∀ (pt : PickupType) (msg : String), req.items.isEmpty = false →
      parsePickupType req.pickupType = some pt →
      validateLines (fetchMenu db req.items) req.items = some msg →
      (createOrder db u req oid).2 = HResult.err 400 msg) ∧
    (∀ (o : Order), (createOrder db u req oid).2 = HResult.ok o →
      (createOrder db u req oid).1.orders = db.orders ++ [o] ∧
      (createOrder db u req oid).1.orderItems =
        db.orderItems ++ req.items.map (mkOrderItem (fetchMenu db req.items) oid) ∧
      (createOrder db u req oid).1.inventoryLogs =
        db.inventoryLogs ++ req.items.map (fun it =>
          ({ staffId := none, itemId := it.menuId, changeType := ChangeType.deduct,
             quantity := it.quantity, note := "Order #" ++ oid } : InventoryLog)) ∧
      ∀ (y : String), (createOrder db u req oid).1.menuItems.find? (fun m => m.id == y) =
        (db.menuItems.find? (fun m => m.id == y)).map (fun m =>
          { m with stockLimit := m.stockLimit.map (fun s =>
              s - condQty (fetchMenu db req.items) req.items y) })) := by
  intro db u req oid
  refine ⟨?_, ?_, ?_, ?_, ?_⟩
  · intro c msg h
    exact createOrder_err_state db u req oid c msg h
  · intro hE
    unfold createOrder
    rw [if_pos hE]
  · intro hE hP
    unfold createOrder
    rw [if_neg (by simp [hE]), hP]
  · intro pt msg hE hP hV
    unfold createOrder
    rw [if_neg (by simp [hE]), hP]
    dsimp only
    rw [hV]
  · intro o h
    obtain ⟨pt, hP, hE, hV, ho, hdb⟩ := createOrder_ok_elim db u req oid o h
    obtain ⟨g1, g2, g3, _, _, _, g7⟩ := commitOrder_fields db u req oid pt
    refine ⟨?_, ?_, ?_, ?_⟩
    · rw [hdb, g1, ho]
    · rw [hdb, g2]
    · rw [hdb, g3]
      exact congrArg _ (List.map_congr_left (fun it _ => rfl))
    · intro y
      rw [hdb]
      exact g7 y

theorem claim_C3_witness :
    (createOrder db0 "u1" reqEmpty "o9").2 = HResult.err 400 "No items provided" ∧
    (createOrder db0 "u1" req0 "o1").1.menuItems.find? (fun m => m.id == "A") =
      some { itemA0 with stockLimit := some 3 } :=
  ⟨(claim_C3 db0 "u1" reqEmpty "o9").2.1 (by decide),
   by
     have h := ((claim_C3 db0 "u1" req0 "o1").2.2.2.2 ord0 (by decide)).2.2.2 "A"
     rw [h]
     decide⟩

/-! ### Row-update helpers -/

/-- The row returned by a lookup carries the looked-up id. -/
theorem findOrder_some_id (db : DB) (oid : String) (o : Order)
    (hF : findOrder db oid = some o) : (o.id == oid) = true := by
  unfold findOrder at hF
  have h := List.find?_some hF
  exact h

/-- Replacing the rows matching an id by a fixed row whose id still
matches makes the lookup return that row. -/
theorem find?_update_const (l : List Order) (oid : String) (o o' : Order)
    (ho' : (o'.id == oid) = true)
    (hF : l.find? (fun q => q.id == oid) = some o) :
    (l.map (fun q => if q.id == oid then o' else q)).find? (fun q => q.id == oid) =
      some o' := by
  rw [find?_map_of_pres (fun q => if q.id == oid then o' else q) (fun q => q.id == oid)
    (by
      intro q
      dsimp only
      by_cases h : (q.id == oid) = true
      · rw [if_pos h, h, ho']
      · rw [if_neg h]) l, hF]
  dsimp only [Option.map]
  rw [if_pos (List.find?_some hF)]

/-- Updating the rows matching an id through an id-preserving function
makes the lookup return the updated found row. -/
theorem find?_update_found (l : List Order) (oid : String) (o : Order)
    (f : Order → Order) (hpres : ∀ q, (f q).id = q.id)
    (hF : l.find? (fun q => q.id == oid) = some o) :
    (l.map (fun q => if q.id == oid then f q else q)).find? (fun q => q.id == oid) =
      some (f o) := by
  rw [find?_map_of_pres (fun q => if q.id == oid then f q else q) (fun q => q.id == oid)
    (by
      intro q
      dsimp only
      by_cases h : q.id = oid
      · simp [hpres q, h]
      · simp [h]) l, hF]
  dsimp only [Option.map]
  rw [if_pos (List.find?_some hF)]

/-! ### Fixtures for the order-status and payment claims -/

def stOrder (st : OrderStatus) : Order :=
  { id := "o1", userId := some "u1", status := st, pickupType := PickupType.dine_in,
    pickupTime := none, totalPrice := 50, paymentStatus := PaymentStatus.pending,
    paymentConfirmed := false, customerName := none, customerType := "student" }

def dbPicked : DB :=
  { menuItems := [], orders := [stOrder OrderStatus.picked_up], orderItems := [],
    inventoryLogs := [], notifications := [], payments := [] }

def dbOwned : DB :=
  { menuItems := [], orders := [stOrder OrderStatus.ready], orderItems := [],
    inventoryLogs := [], notifications := [], payments := [] }

def dbPending : DB :=
  { menuItems := [], orders := [stOrder OrderStatus.pending], orderItems := [],
    inventoryLogs := [], notifications := [], payments := [] }

def walkOrder : Order :=
  { id := "o1", userId := none, status := OrderStatus.ready, pickupType := PickupType.dine_in,
    pickupTime := none, totalPrice := 50, paymentStatus := PaymentStatus.pending,
    paymentConfirmed := false, customerName := some "Walk-in Guest", customerType := "walk_in" }

def dbWalk : DB :=
  { menuItems := [], orders := [walkOrder], orderItems := [],
    inventoryLogs := [], notifications := [], payments := [] }

/-- Claim C4 counterexample: an order already in the terminal
`picked_up` state is moved back to `pending` by the staff
status-update endpoint, and the update succeeds — no state-machine
reachability check exists. -/
theorem claim_C4_counterexample :
    (updateStatus dbPicked "o1" "pending").2 =
      HResult.ok { stOrder OrderStatus.picked_up with status := OrderStatus.pending } ∧
    findOrder (updateStatus dbPicked "o1" "pending").1 "o1" =
      some { stOrder OrderStatus.picked_up with status := OrderStatus.pending } := by decide

/-- Claim C4 (amended): the staff status update validates only that
the new status belongs to the enum — unknown strings fail with 400
and leave the store unchanged, while any enum status is accepted from
any current status (including the terminal ones), with no
reachability check. -/
theorem claim_C4 : ∀ (db : DB) (oid str : String),
    (oid ≠ "" → str ≠ "" → parseOrderStatus str = none →
      updateStatus db oid str = (db, HResult.err 400 "Invalid status")) ∧
    (∀ (st : OrderStatus) (o : Order) (uid : String), oid ≠ "" →
      parseOrderStatus str = some st → findOrder db oid = some o →
      o.userId = some uid →
      (updateStatus db oid str).2 = HResult.ok { o with status := st } ∧
      findOrder (updateStatus db oid str).1 oid = some { o with status := st }) := by
  intro db oid str
  constructor
  · intro h0 hs hP
    unfold updateStatus
    rw [if_neg h0, if_neg hs, hP]
  · intro st o uid h0 hP hF hU
    have hs : str ≠ "" := by
      intro he
      rw [he, (by decide : parseOrderStatus "" = (none : Option OrderStatus))] at hP
      cases hP
    have hupd : updateStatus db oid str =
        ({ db with
            orders := db.orders.map (fun q => if q.id == oid then { o with status := st } else q)
            notifications := db.notifications ++ [statusNote uid { o with status := st }] },
         HResult.ok { o with status := st }) := by
      unfold updateStatus
      rw [if_neg h0, if_neg hs, hP]
      dsimp only
      rw [hF]
      dsimp only
      rw [hU]
    rw [hupd]
    refine ⟨rfl, ?_⟩
    exact find?_update_const db.orders oid o { o with status := st }
      (findOrder_some_id db oid o hF) hF

theorem claim_C4_witness :
    (updateStatus dbPicked "o1" "pending").1.orders =
      [{ stOrder OrderStatus.picked_up with status := OrderStatus.pending }] ∧
    findOrder (updateStatus dbPicked "o1" "pending").1 "o1" =
      some { stOrder OrderStatus.picked_up with status := OrderStatus.pending } :=
  ⟨by decide,
   ((claim_C4 dbPicked "o1" "pending").2 OrderStatus.pending
     (stOrder OrderStatus.picked_up) "u1" (by decide) (by decide) (by decide)
     (by decide)).2⟩

/-- Claim C5 counterexample: updating the status of a walk-in order
(no owning user) does not skip the notification — the insert violates
the NOT NULL owner column, the endpoint answers 500, and the status
change has nevertheless already been committed. -/
theorem claim_C5_counterexample :
    (updateStatus dbWalk "o1" "picked_up").2 =
      HResult.err 500 "Failed to update order status" ∧
    (updateStatus dbWalk "o1" "picked_up").1.notifications = [] ∧
    findOrder (updateStatus dbWalk "o1" "picked_up").1 "o1" =
      some { walkOrder with status := OrderStatus.picked_up } := by decide

/-- Claim C5 (amended): a status update on an order with an owning
user succeeds and appends exactly one unread notification to that
user whose message names the new status; on an order with no owning
user the notification insert fails, the endpoint answers 500, and the
status update itself has nonetheless been persisted. -/
theorem claim_C5 : ∀ (db : DB) (oid str : String) (st : OrderStatus) (o : Order),
    oid ≠ "" → parseOrderStatus str = some st → findOrder db oid = some o →
    ((∀ (uid : String), o.userId = some uid →
        (updateStatus db oid str).2 = HResult.ok { o with status := st } ∧
        (updateStatus db oid str).1.notifications = db.notifications ++
          [{ userId := uid, orderId := o.id,
             message := "Your order #" ++ o.id ++ " status is now: " ++
               statusName st ++ ".",
             status := NotificationStatus.unread }] ∧
        findOrder (updateStatus db oid str).1 oid = some { o with status := st }) ∧
     (o.userId = none →
        (updateStatus db oid str).2 = HResult.err 500 "Failed to update order status" ∧
        (updateStatus db oid str).1.notifications = db.notifications ∧
        findOrder (updateStatus db oid str).1 oid = some { o with status := st })) := by
  intro db oid str st o h0 hP hF
  have hs : str ≠ "" := by
    intro he
    rw [he, (by decide : parseOrderStatus "" = (none : Option OrderStatus))] at hP
    cases hP
  constructor
  · intro uid hU
    have hupd : updateStatus db oid str =
        ({ db with
            orders := db.orders.map (fun q => if q.id == oid then { o with status := st } else q)
            notifications := db.notifications ++ [statusNote uid { o with status := st }] },
         HResult.ok { o with status := st }) := by
      unfold updateStatus
      rw [if_neg h0, if_neg hs, hP]
      dsimp only
      rw [hF]
      dsimp only
      rw [hU]
    rw [hupd]
    refine ⟨rfl, rfl, ?_⟩
    exact find?_update_const db.orders oid o { o with status := st }
      (findOrder_some_id db oid o hF) hF
  · intro hU
    have hupd : updateStatus db oid str =
        ({ db with
            orders := db.orders.map (fun q => if q.id == oid then { o with status := st } else q) },
         HResult.err 500 "Failed to update order status") := by
      unfold updateStatus
      rw [if_neg h0, if_neg hs, hP]
      dsimp only
      rw [hF]
      dsimp only
      rw [hU]
    rw [hupd]
    refine ⟨rfl, rfl, ?_⟩
    exact find?_update_const db.orders oid o { o with status := st }
      (findOrder_some_id db oid o hF) hF

theorem claim_C5_witness :
    (updateStatus dbOwned "o1" "picked_up").2 =
      HResult.ok { stOrder OrderStatus.ready with status := OrderStatus.picked_up } ∧
    (updateStatus dbOwned "o1" "picked_up").1.notifications =
      dbOwned.notifications ++
        [{ userId := "u1", orderId := (stOrder OrderStatus.ready).id,
           message := "Your order #" ++ (stOrder OrderStatus.ready).id ++
             " status is now: " ++ statusName OrderStatus.picked_up ++ ".",
           status := NotificationStatus.unread }] ∧
    findOrder (updateStatus dbOwned "o1" "picked_up").1 "o1" =
      some { stOrder OrderStatus.ready with status := OrderStatus.picked_up } :=
  (claim_C5 dbOwned "o1" "picked_up" OrderStatus.picked_up (stOrder OrderStatus.ready)
    (by decide) (by decide) (by decide)).1 "u1" (by decide)

/-- Claim C7: the student cancel endpoint on an existing order fails
with 403 for a non-owner (store unchanged), fails with 400 when the
owner's order is not pending (store unchanged), and otherwise sets the
status — and nothing else — to rejected. -/
theorem claim_C7 : ∀ (db : DB) (caller oid : String) (o : Order),
    oid ≠ "" → findOrder db oid = some o →
    ((o.userId ≠ some caller →
        cancelOrder db caller oid =
          (db, HResult.err 403 "You can only cancel your own orders")) ∧
     (o.userId = some caller → o.status ≠ OrderStatus.pending →
        cancelOrder db caller oid =
          (db, HResult.err 400 "Only pending orders can be cancelled")) ∧
     (o.userId = some caller → o.status = OrderStatus.pending →
        (cancelOrder db caller oid).2 = HResult.ok { o with status := OrderStatus.rejected } ∧
        findOrder (cancelOrder db caller oid).1 oid =
          some { o with status := OrderStatus.rejected })) := by
  intro db caller oid o h0 hF
  refine ⟨?_, ?_, ?_⟩
  · intro hown
    unfold cancelOrder
    rw [if_neg h0]
    dsimp only
    rw [hF]
    dsimp only
    rw [if_neg hown]
  · intro hown hst
    unfold cancelOrder
    rw [if_neg h0]
    dsimp only
    rw [hF]
    dsimp only
    rw [if_pos hown, if_neg hst]
  · intro hown hst
    have hupd : cancelOrder db caller oid =
        ({ db with orders := db.orders.map (fun q =>
            if q.id == oid then { o with status := OrderStatus.rejected } else q) },
         HResult.ok { o with status := OrderStatus.rejected }) := by
      unfold cancelOrder
      rw [if_neg h0]
      dsimp only
      rw [hF]
      dsimp only
      rw [if_pos hown, if_pos hst]
    rw [hupd]
    refine ⟨rfl, ?_⟩
    exact find?_update_const db.orders oid o { o with status := OrderStatus.rejected }
      (findOrder_some_id db oid o hF) hF

theorem claim_C7_witness :
    (cancelOrder dbPending "u1" "o1").2 =
      HResult.ok { stOrder OrderStatus.pending with status := OrderStatus.rejected } ∧
    findOrder (cancelOrder dbPending "u1" "o1").1 "o1" =
      some { stOrder OrderStatus.pending with status := OrderStatus.rejected } :=
  ((claim_C7 dbPending "u1" "o1" (stOrder OrderStatus.pending) (by decide)
    (by decide)).2.2 (by decide) (by decide))

/-! ### Payment claims -/

def dbPay : DB :=
  { menuItems := [], orders := [stOrder OrderStatus.ready], orderItems := [],
    inventoryLogs := [], notifications := [], payments := [] }

def pReqZero : PaymentReq :=
  { orderId := some "o1", customerName := none, customerType := none,
    amountReceived := some 0 }

def pReqUnder : PaymentReq :=
  { orderId := some "o1", customerName := none, customerType := none,
    amountReceived := some 30 }

def pReqFull : PaymentReq :=
  { orderId := some "o1", customerName := none, customerType := none,
    amountReceived := some 100 }

/-- Behaviour of `createPayment` on a linked, existing order with a
usable (non-zero) amount: payment row recorded with the order's total
as due and `received − due` as change, and the order marked paid and
picked up. -/
theorem createPayment_linked (db : DB) (caller : String) (req : PaymentReq)
    (pid : String) (a : Int) (oid : String) (ord : Order)
    (hA : req.amountReceived = some a) (h0 : a ≠ 0)
    (hO : req.orderId = some oid) (hF : findOrder db oid = some ord) :
    (createPayment db caller req pid).2 = HResult.ok
      { id := pid, orderId := some oid, processedById := caller,
        amountDue := ord.totalPrice, amountReceived := a,
        change := a - ord.totalPrice, paymentMethod := "cash" } ∧
    (createPayment db caller req pid).1.payments = db.payments ++
      [{ id := pid, orderId := some oid, processedById := caller,
         amountDue := ord.totalPrice, amountReceived := a,
         change := a - ord.totalPrice, paymentMethod := "cash" }] ∧
    findOrder (createPayment db caller req pid).1 oid = some (paidUpdate req ord) := by
  have hupd : createPayment db caller req pid =
      ({ db with
          payments := db.payments ++
            [{ id := pid, orderId := some oid, processedById := caller,
               amountDue := ord.totalPrice, amountReceived := a,
               change := a - ord.totalPrice, paymentMethod := "cash" }]
          orders := db.orders.map (fun q =>
            if q.id == oid then paidUpdate req q else q) },
       HResult.ok
         { id := pid, orderId := some oid, processedById := caller,
           amountDue := ord.totalPrice, amountReceived := a,
           change := a - ord.totalPrice, paymentMethod := "cash" }) := by
    unfold createPayment
    rw [hA]
    dsimp only
    rw [if_neg h0, hO]
    dsimp only
    rw [hF]
  rw [hupd]
  refine ⟨rfl, rfl, ?_⟩
  exact find?_update_found db.orders oid ord (paidUpdate req) (fun q => rfl) hF

/-- Claim C6 counterexample: `amountReceived = 0` is present in the
body and the linked order exists, yet the request is rejected with
400 and the order is not marked paid — the JavaScript truthiness test
treats a present zero as missing. -/
theorem claim_C6_counterexample :
    createPayment dbPay "staff1" pReqZero "p1" =
      (dbPay, HResult.err 400 "Amount received is required.") ∧
    findOrder dbPay "o1" = some (stOrder OrderStatus.ready) := by decide

/-- Claim C6 (amended): for a present and non-zero `amountReceived`:
with a linked existing order the payment records the order's stored
total as the due amount, change = received − due (negative change
accepted), and the order is marked paid / picked up; without a linked
order the due amount equals the received amount, so the change is
zero. -/
theorem claim_C6 : ∀ (db : DB) (caller : String) (req : PaymentReq) (pid : String)
    (a : Int), req.amountReceived = some a → a ≠ 0 →
    ((∀ (oid : String) (ord : Order), req.orderId = some oid →
        findOrder db oid = some ord →
        (createPayment db caller req pid).2 = HResult.ok
          { id := pid, orderId := some oid, processedById := caller,
            amountDue := ord.totalPrice, amountReceived := a,
            change := a - ord.totalPrice, paymentMethod := "cash" } ∧
        (createPayment db caller req pid).1.payments = db.payments ++
          [{ id := pid, orderId := some oid, processedById := caller,
             amountDue := ord.totalPrice, amountReceived := a,
             change := a - ord.totalPrice, paymentMethod := "cash" }] ∧
        findOrder (createPayment db caller req pid).1 oid = some (paidUpdate req ord) ∧
        (paidUpdate req ord).paymentStatus = PaymentStatus.paid ∧
        (paidUpdate req ord).status = OrderStatus.picked_up) ∧
     (req.orderId = none →
        (createPayment db caller req pid).2 = HResult.ok
          { id := pid, orderId := none, processedById := caller,
            amountDue := a, amountReceived := a, change := a - a,
            paymentMethod := "cash" } ∧
        a - a = 0)) := by
  intro db caller req pid a hA h0
  constructor
  · intro oid ord hO hF
    obtain ⟨h1, h2, h3⟩ := createPayment_linked db caller req pid a oid ord hA h0 hO hF
    exact ⟨h1, h2, h3, rfl, rfl⟩
  · intro hO
    constructor
    · unfold createPayment
      rw [hA]
      dsimp only
      rw [if_neg h0, hO]
    · omega

theorem claim_C6_witness :
    (createPayment dbPay "staff1" pReqUnder "p1").2 = HResult.ok
      { id := "p1", orderId := some "o1", processedById := "staff1",
        amountDue := (stOrder OrderStatus.ready).totalPrice, amountReceived := 30,
        change := 30 - (stOrder OrderStatus.ready).totalPrice,
        paymentMethod := "cash" } :=
  ((claim_C6 dbPay "staff1" pReqUnder "p1" 30 (by decide) (by decide)).1 "o1"
    (stOrder OrderStatus.ready) (by decide) (by decide)).1

/-! ### Access-control claims -/

/-- Claim C8 counterexample: a present but invalid token is answered
with 403, not 401 — `jwt.verify` failures fall into the 403 branch of
the middleware. -/
theorem claim_C8_counterexample :
    runProtected [Role.student] (some TokenCheck.invalid)
      (fun u db => cancelOrder db u.id "o1") dbPending =
      (dbPending, HResult.err 403 "Invalid token") := by decide

/-- Claim C8 (amended): a missing token is answered 401 and an
invalid token 403; a valid token with a role outside the allow-list
is answered 403; in all three failure cases the store is unchanged
and the result does not depend on the handler — the handler runs only
for a valid token with an allowed role. -/
theorem claim_C8 : ∀ (α : Type) (roles : List Role)
    (h : AuthUser → DB → DB × HResult α) (db : DB),
    (runProtected roles none h db =
      (db, HResult.err 401 "Access denied. No token provided.")) ∧
    (runProtected roles (some TokenCheck.invalid) h db =
      (db, HResult.err 403 "Invalid token")) ∧
    (∀ (uid : String) (r : Role), roles.contains r = false →
      runProtected roles (some (TokenCheck.valid uid r)) h db =
        (db, HResult.err 403 "Forbidden: insufficient role")) ∧
    (∀ (uid : String) (r : Role), roles.contains r = true →
      runProtected roles (some (TokenCheck.valid uid r)) h db =
        h { id := uid, role := r } db) := by
  intro α roles h db
  refine ⟨rfl, rfl, ?_, ?_⟩
  · intro uid r hr
    unfold runProtected authenticateToken requireRole
    dsimp only
    rw [hr]
    simp
  · intro uid r hr
    unfold runProtected authenticateToken requireRole
    dsimp only
    rw [hr]
    simp

theorem claim_C8_witness :
    runProtected [Role.staff, Role.admin] (some (TokenCheck.valid "u1" Role.student))
      (fun u db => cancelOrder db u.id "o1") dbPending =
      (dbPending, HResult.err 403 "Forbidden: insufficient role") :=
  (claim_C8 Order [Role.staff, Role.admin] (fun u db => cancelOrder db u.id "o1")
    dbPending).2.2.1 "u1" Role.student (by decide)

/-! ### Notification claims -/

theorem markAllRead_map_idem (u : String) (l : List Notification) :
    (l.map (fun n =>
      if n.userId == u && n.status == NotificationStatus.unread then
        { n with status := NotificationStatus.read }
      else n)).map (fun n =>
      if n.userId == u && n.status == NotificationStatus.unread then
        { n with status := NotificationStatus.read }
      else n) =
    l.map (fun n =>
      if n.userId == u && n.status == NotificationStatus.unread then
        { n with status := NotificationStatus.read }
      else n) := by
  rw [List.map_map]
  apply List.map_congr_left
  intro n _
  by_cases h1 : n.userId = u <;> by_cases h2 : n.status = NotificationStatus.unread <;>
    simp [Function.comp, h1, h2]

theorem markAllRead_idem (db : DB) (u : String) :
    markAllRead (markAllRead db u) u = markAllRead db u := by
  unfold markAllRead
  dsimp only
  rw [markAllRead_map_idem]

/-- Claim C9: mark-all-read leaves the caller with zero unread
notifications, is idempotent, and leaves every notification of any
other user untouched (positionally) on both runs. -/
theorem claim_C9 : ∀ (db : DB) (u : String),
    unreadCount (markAllRead db u) u = 0 ∧
    markAllRead (markAllRead db u) u = markAllRead db u ∧
    (∀ (i : Nat) (n : Notification), db.notifications[i]? = some n → n.userId ≠ u →
      (markAllRead db u).notifications[i]? = some n ∧
      (markAllRead (markAllRead db u) u).notifications[i]? = some n) := by
  intro db u
  have huntouched : ∀ (i : Nat) (n : Notification), db.notifications[i]? = some n →
      n.userId ≠ u → (markAllRead db u).notifications[i]? = some n := by
    intro i n hi hne
    unfold markAllRead
    dsimp only
    rw [List.getElem?_map, hi]
    dsimp only [Option.map]
    congr 1
    simp [hne]
  refine ⟨?_, markAllRead_idem db u, ?_⟩
  · unfold unreadCount markAllRead
    dsimp only
    rw [List.filter_map, List.length_map, List.length_eq_zero, List.filter_eq_nil_iff]
    intro n _
    by_cases h1 : n.userId = u <;> by_cases h2 : n.status = NotificationStatus.unread <;>
      simp [Function.comp, h1, h2]
  · intro i n hi hne
    refine ⟨huntouched i n hi hne, ?_⟩
    rw [markAllRead_idem db u]
    exact huntouched i n hi hne

def note1 : Notification :=
  { userId := "u1", orderId := "o1", message := "Your order #o1 has been placed successfully.",
    status := NotificationStatus.unread }

def note2 : Notification :=
  { userId := "u2", orderId := "o2", message := "Your order #o2 has been placed successfully.",
    status := NotificationStatus.unread }

def dbNotes : DB :=
  { menuItems := [], orders := [], orderItems := [],
    inventoryLogs := [], notifications := [note1, note2], payments := [] }

theorem claim_C9_witness :
    unreadCount (markAllRead dbNotes "u1") "u1" = 0 ∧
    (markAllRead dbNotes "u1").notifications[1]? = some note2 ∧
    (markAllRead (markAllRead dbNotes "u1") "u1").notifications[1]? = some note2 :=
  ⟨(claim_C9 dbNotes "u1").1,
   ((claim_C9 dbNotes "u1").2.2 1 note2 (by decide) (by decide)).1,
   ((claim_C9 dbNotes "u1").2.2 1 note2 (by decide) (by decide)).2⟩

/-- Claim C10: payment creation is gated by authentication alone —
for a caller of any role (a student included) and any existing order,
the request succeeds, the caller is recorded as the processing user,
and the order is marked paid and picked up; no check relates the
caller's role or identity to the order. -/
theorem claim_C10 : ∀ (db : DB) (uid : String) (r : Role) (req : PaymentReq)
    (pid oid : String) (ord : Order) (a : Int),
    req.orderId = some oid → req.amountReceived = some a → a ≠ 0 →
    findOrder db oid = some ord →
    ((postPayment (some (TokenCheck.valid uid r)) db req pid).2 = HResult.ok
      { id := pid, orderId := some oid, processedById := uid,
        amountDue := ord.totalPrice, amountReceived := a,
        change := a - ord.totalPrice, paymentMethod := "cash" } ∧
     findOrder (postPayment (some (TokenCheck.valid uid r)) db req pid).1 oid =
       some (paidUpdate req ord) ∧
     (paidUpdate req ord).paymentStatus = PaymentStatus.paid ∧
     (paidUpdate req ord).status = OrderStatus.picked_up) := by
  intro db uid r req pid oid ord a hO hA h0 hF
  have hpost : postPayment (some (TokenCheck.valid uid r)) db req pid =
      createPayment db uid req pid := rfl
  rw [hpost]
  obtain ⟨h1, _, h3⟩ := createPayment_linked db uid req pid a oid ord hA h0 hO hF
  exact ⟨h1, h3, rfl, rfl⟩

theorem claim_C10_witness :
    (postPayment (some (TokenCheck.valid "student9" Role.student)) dbPay pReqFull "p1").2 =
      HResult.ok
        { id := "p1", orderId := some "o1", processedById := "student9",
          amountDue := (stOrder OrderStatus.ready).totalPrice, amountReceived := 100,
          change := 100 - (stOrder OrderStatus.ready).totalPrice,
          paymentMethod := "cash" } :=
  (claim_C10 dbPay "student9" Role.student pReqFull "p1" "o1"
    (stOrder OrderStatus.ready) 100 (by decide) (by decide) (by decide) (by decide)).1

end Cafeteria
